import Mathlib

/-!
Verification of the Lattes-CV extraction and HTML rendering pipeline
(`scripts/parse_lattes.py`, `scripts/generate_lattes_pages.py`,
`scripts/generate_html.py`).

Strings are modelled as `List Char` (`Str`); an XML document as a rose
tree of elements carrying a tag, an attribute list and a child list,
mirroring `xml.etree.ElementTree`.
-/

namespace LcadSite

/-- Python strings, modelled as lists of characters (code points). -/
abbrev Str := List Char

/-- Convert a Lean string literal to the `Str` model. -/
def toStr (s : String) : Str := s.data

/-- An XML element: tag name, attribute list, children, as exposed by
`xml.etree.ElementTree.Element`. -/
inductive Element where
  | mk (tag : Str) (attrs : List (Str × Str)) (children : List Element)

/-- The element's tag. -/
def Element.tag : Element → Str
  | .mk t _ _ => t

/-- The element's attribute list. -/
def Element.attrs : Element → List (Str × Str)
  | .mk _ a _ => a

/-- The element's direct children. -/
def Element.children : Element → List Element
  | .mk _ _ c => c

/-- `e.get(name)` without default: the first attribute named `name`. -/
def getAttr? (e : Element) (name : Str) : Option Str :=
  (e.attrs.find? (fun p => p.1 == name)).map Prod.snd

/-- `e.get(name, default)`: attribute lookup with a default value. -/
def getAttrD (e : Element) (name : Str) (dflt : Str) : Str :=
  (getAttr? e name).getD dflt

/-- `e.find(tag)`: the first direct child with the given tag
(`ElementTree.Element.find`). -/
def findChild (e : Element) (tag : Str) : Option Element :=
  e.children.find? (fun c => c.tag == tag)

mutual
/-- `e.iter(tag)`: all elements of the subtree rooted at `e` (including
`e` itself) whose tag matches, in document (depth-first preorder) order
(`ElementTree.Element.iter`). -/
def iterElems (tag : Str) : Element → List Element
  | .mk t a cs => (if t == tag then [Element.mk t a cs] else []) ++ iterElemsList tag cs
/-- `iterElems` mapped over a list of sibling elements. -/
def iterElemsList (tag : Str) : List Element → List Element
  | [] => []
  | c :: cs => iterElems tag c ++ iterElemsList tag cs
end

/-! ## Python primitives used by the scripts -/

/-- ASCII whitespace, as stripped by Python's `int(str)`. -/
def isSpaceChar (c : Char) : Bool :=
  c = ' ' || c = '\t' || c = '\n' || c = '\r' || c = '\x0b' || c = '\x0c'

/-- Strip whitespace from both ends. -/
def stripSpaces (s : Str) : Str :=
  ((s.dropWhile isSpaceChar).reverse.dropWhile isSpaceChar).reverse

/-- The numeric value of a nonempty ASCII digit string. -/
def digitsToNat (s : Str) : Nat :=
  s.foldl (fun acc c => 10 * acc + (c.toNat - 48)) 0

/-- Python's `int(str)` conversion, restricted to ASCII: strip
whitespace, optional sign, then one or more decimal digits; `none`
models the `ValueError` raised on any other input.  (Python additionally
accepts underscore digit separators and non-ASCII digits; no input in
this development uses them.) -/
def pyInt (s : Str) : Option Int :=
  match stripSpaces s with
  | '+' :: ds => if ds ≠ [] ∧ ds.all Char.isDigit then some (digitsToNat ds) else none
  | '-' :: ds => if ds ≠ [] ∧ ds.all Char.isDigit then some (-(digitsToNat ds : Int)) else none
  | ds => if ds ≠ [] ∧ ds.all Char.isDigit then some (digitsToNat ds) else none

/-- Run a fallible step over a list, aborting on the first failure
(the behaviour of an uncaught exception inside a `for` loop). -/
def mapOpt (f : α → Option β) : List α → Option (List β)
  | [] => some []
  | a :: as =>
    match f a with
    | none => none
    | some b => (mapOpt f as).map (b :: ·)

/-- Drop the `none` entries of a list (elements skipped by a loop). -/
def catOptions : List (Option α) → List α
  | [] => []
  | none :: rest => catOptions rest
  | some a :: rest => a :: catOptions rest

/-- `a or b` on Python strings: `b` when `a` is empty, else `a`. -/
def pyOr (a b : Str) : Str := if a = [] then b else a

/-! ## Record types produced by `parse_lattes_xml` -/

/-- A journal-article record (`parse_lattes.py` lines 47–59). -/
structure Article where
  title : Str
  title_en : Str
  year : Str
  doi : Str
  language : Str
  authors : List Str
  journal : Str
  volume : Str
  issue : Str
  pages : Str
  issn : Str

/-- A conference-paper record (`parse_lattes.py` lines 77–90). -/
structure ConfPaper where
  title : Str
  title_en : Str
  year : Str
  doi : Str
  language : Str
  authors : List Str
  event : Str
  event_en : Str
  proceedings : Str
  pages : Str
  city : Str
  country : Str

/-- A book record (`parse_lattes.py` lines 108–117). -/
structure Book where
  title : Str
  title_en : Str
  year : Str
  doi : Str
  authors : List Str
  publisher : Str
  isbn : Str
  pages : Str

/-- A book-chapter record (`parse_lattes.py` lines 135–145). -/
structure Chapter where
  title : Str
  title_en : Str
  year : Str
  doi : Str
  authors : List Str
  book_title : Str
  publisher : Str
  isbn : Str
  pages : Str

/-- A project-member entry (`parse_lattes.py` lines 165–168). -/
structure ProjMember where
  name : Str
  role : Str

/-- A project-funding entry (`parse_lattes.py` lines 173–176). -/
structure ProjFunding where
  agency : Str
  nature : Str

/-- A research-project record (`parse_lattes.py` lines 150–160). -/
structure Project where
  name : Str
  year_start : Str
  year_end : Str
  status : Str
  nature : Str
  description : Str
  description_en : Str
  funding : List ProjFunding
  members : List ProjMember

/-- The structured document returned by `parse_lattes_xml`
(`parse_lattes.py` lines 24–30). -/
structure ParseData where
  articles : List Article
  conference_papers : List ConfPaper
  books : List Book
  book_chapters : List Chapter
  projects : List Project

/-! ## Author extraction (`parse_lattes.py` lines 38–45, repeated per
category at lines 68–75, 99–106, 126–133) -/

/-- One pass of the author loop body: name from
`NOME-COMPLETO-DO-AUTOR` (default `''`), order from
`int(autor.get('ORDEM-DE-AUTORIA', 0))` — when the attribute is absent
the default is the Python integer `0` and `int` is the identity on it;
when present, `int` parses the string and raises (`none`) on failure. -/
def authorEntry (autor : Element) : Option (Int × Str) :=
  let name := getAttrD autor (toStr "NOME-COMPLETO-DO-AUTOR") []
  match getAttr? autor (toStr "ORDEM-DE-AUTORIA") with
  | none => some (0, name)
  | some s => (pyInt s).map (fun o => (o, name))

/-- The `for autor in elem.iter('AUTORES')` collection loop. -/
def collectAuthorPairs (e : Element) : Option (List (Int × Str)) :=
  mapOpt authorEntry (iterElems (toStr "AUTORES") e)

/-- Stable insertion (from the right) into a list sorted ascending by
the order integer; the element being inserted precedes every element of
the list in the original order. -/
def insertAscFst (x : Int × Str) : List (Int × Str) → List (Int × Str)
  | [] => [x]
  | y :: ys => if y.1 < x.1 then y :: insertAscFst x ys else x :: y :: ys

/-- `authors.sort(key=lambda x: x[0])`: stable sort ascending by the
authorship-order integer. -/
def sortAuthorPairs (l : List (Int × Str)) : List (Int × Str) :=
  l.foldr insertAscFst []

/-- The full author-list computation for one publication element:
collect `(order, name)` pairs, sort by order, keep the names
(`parse_lattes.py` lines 38–45). -/
def extractAuthors (e : Element) : Option (List Str) :=
  (collectAuthorPairs e).map (fun l => (sortAuthorPairs l).map Prod.snd)

/-! ## Year sort (`parse_lattes.py` lines 181–186)

`list.sort(key=..., reverse=True)` compares the year *strings*
lexicographically by code point (Python string comparison) and is
stable. -/

/-- Python string `<`: lexicographic by code point, a proper prefix is
smaller. -/
def strLt : Str → Str → Bool
  | [], [] => false
  | [], _ :: _ => true
  | _ :: _, [] => false
  | a :: as, b :: bs =>
    if a.toNat < b.toNat then true
    else if b.toNat < a.toNat then false
    else strLt as bs

/-- Stable insertion (from the right) into a list sorted descending by
`key`; the inserted element precedes the list elements in original
order, so it is placed before the first element whose key is not
strictly greater. -/
def insertKeyDesc (key : α → Str) (x : α) : List α → List α
  | [] => [x]
  | y :: ys => if strLt (key x) (key y) then y :: insertKeyDesc key x ys else x :: y :: ys

/-- `l.sort(key=..., reverse=True)`: stable sort, descending in the
lexicographic string order of the key. -/
def sortKeyDesc (key : α → Str) (l : List α) : List α :=
  l.foldr (insertKeyDesc key) []

/-! ## Per-element record construction (`parse_lattes.py`) -/

/-- `detalhes.get(name, '') if detalhes is not None else ''`. -/
def detGet (det : Option Element) (name : Str) : Str :=
  match det with
  | none => []
  | some d => getAttrD d name []

/-- `f"{det.get('PAGINA-INICIAL','')}-{det.get('PAGINA-FINAL','')}"
if detalhes is not None else ''`. -/
def detPages (det : Option Element) : Str :=
  match det with
  | none => []
  | some d => getAttrD d (toStr "PAGINA-INICIAL") [] ++ '-' ::
      getAttrD d (toStr "PAGINA-FINAL") []

/-- Body of the `ARTIGO-PUBLICADO` loop (`parse_lattes.py` lines
33–60): `some none` when the element is skipped for lack of
`DADOS-BASICOS-DO-ARTIGO`, `none` when `int()` fails on an
authorship-order value. -/
def processArtigo (e : Element) : Option (Option Article) :=
  match findChild e (toStr "DADOS-BASICOS-DO-ARTIGO") with
  | none => some none
  | some dados =>
    let detalhes := findChild e (toStr "DETALHAMENTO-DO-ARTIGO")
    (extractAuthors e).map (fun author_list => some
      { title := getAttrD dados (toStr "TITULO-DO-ARTIGO") []
        title_en := getAttrD dados (toStr "TITULO-DO-ARTIGO-INGLES") []
        year := getAttrD dados (toStr "ANO-DO-ARTIGO") []
        doi := getAttrD dados (toStr "DOI") []
        language := getAttrD dados (toStr "IDIOMA") []
        authors := author_list
        journal := detGet detalhes (toStr "TITULO-DO-PERIODICO-OU-REVISTA")
        volume := detGet detalhes (toStr "VOLUME")
        issue := detGet detalhes (toStr "FASCICULO")
        pages := detPages detalhes
        issn := detGet detalhes (toStr "ISSN") })

/-- Body of the `TRABALHO-EM-EVENTOS` loop (`parse_lattes.py` lines
63–91). -/
def processTrabalho (e : Element) : Option (Option ConfPaper) :=
  match findChild e (toStr "DADOS-BASICOS-DO-TRABALHO") with
  | none => some none
  | some dados =>
    let detalhes := findChild e (toStr "DETALHAMENTO-DO-TRABALHO")
    (extractAuthors e).map (fun author_list => some
      { title := getAttrD dados (toStr "TITULO-DO-TRABALHO") []
        title_en := getAttrD dados (toStr "TITULO-DO-TRABALHO-INGLES") []
        year := getAttrD dados (toStr "ANO-DO-TRABALHO") []
        doi := getAttrD dados (toStr "DOI") []
        language := getAttrD dados (toStr "IDIOMA") []
        authors := author_list
        event := detGet detalhes (toStr "NOME-DO-EVENTO")
        event_en := detGet detalhes (toStr "NOME-DO-EVENTO-INGLES")
        proceedings := detGet detalhes (toStr "TITULO-DOS-ANAIS-OU-PROCEEDINGS")
        pages := detPages detalhes
        city := detGet detalhes (toStr "CIDADE-DO-EVENTO")
        country := detGet detalhes (toStr "PAIS-DO-EVENTO") })

/-- Body of the `LIVRO-PUBLICADO-OU-ORGANIZADO` loop (`parse_lattes.py`
lines 94–118). -/
def processLivro (e : Element) : Option (Option Book) :=
  match findChild e (toStr "DADOS-BASICOS-DO-LIVRO") with
  | none => some none
  | some dados =>
    let detalhes := findChild e (toStr "DETALHAMENTO-DO-LIVRO")
    (extractAuthors e).map (fun author_list => some
      { title := getAttrD dados (toStr "TITULO-DO-LIVRO") []
        title_en := getAttrD dados (toStr "TITULO-DO-LIVRO-INGLES") []
        year := getAttrD dados (toStr "ANO") []
        doi := getAttrD dados (toStr "DOI") []
        authors := author_list
        publisher := detGet detalhes (toStr "NOME-DA-EDITORA")
        isbn := detGet detalhes (toStr "ISBN")
        pages := detGet detalhes (toStr "NUMERO-DE-PAGINAS") })

/-- Body of the `CAPITULO-DE-LIVRO-PUBLICADO` loop (`parse_lattes.py`
lines 121–146). -/
def processCapitulo (e : Element) : Option (Option Chapter) :=
  match findChild e (toStr "DADOS-BASICOS-DO-CAPITULO") with
  | none => some none
  | some dados =>
    let detalhes := findChild e (toStr "DETALHAMENTO-DO-CAPITULO")
    (extractAuthors e).map (fun author_list => some
      { title := getAttrD dados (toStr "TITULO-DO-CAPITULO-DO-LIVRO") []
        title_en := getAttrD dados (toStr "TITULO-DO-CAPITULO-DO-LIVRO-INGLES") []
        year := getAttrD dados (toStr "ANO") []
        doi := getAttrD dados (toStr "DOI") []
        authors := author_list
        book_title := detGet detalhes (toStr "TITULO-DO-LIVRO")
        publisher := detGet detalhes (toStr "NOME-DA-EDITORA")
        isbn := detGet detalhes (toStr "ISBN")
        pages := detPages detalhes })

/-- Body of the `PROJETO-DE-PESQUISA` loop (`parse_lattes.py` lines
149–179).  `description` and `description_en` are initialised to `''`
and never assigned again: the loop under the "Get project description"
comment only collects team members. -/
def processProjeto (e : Element) : Project :=
  { name := getAttrD e (toStr "NOME-DO-PROJETO") []
    year_start := getAttrD e (toStr "ANO-INICIO") []
    year_end := getAttrD e (toStr "ANO-FIM") []
    status := getAttrD e (toStr "SITUACAO") []
    nature := getAttrD e (toStr "NATUREZA") []
    description := []
    description_en := []
    funding := (iterElems (toStr "FINANCIADOR-DO-PROJETO") e).map (fun f =>
      { agency := getAttrD f (toStr "NOME-INSTITUICAO") []
        nature := getAttrD f (toStr "NATUREZA") [] })
    members := ((iterElems (toStr "EQUIPE-DO-PROJETO") e).flatMap
        (iterElems (toStr "INTEGRANTES-DO-PROJETO"))).map (fun i =>
      { name := getAttrD i (toStr "NOME-COMPLETO") []
        role := getAttrD i (toStr "FLAG-RESPONSAVEL") [] }) }

/-- Pre-sort collection of one publication category: run the loop body
over every matching element of the tree, aborting the whole run on an
`int()` failure and dropping skipped elements. -/
def collectRecords (tag : Str) (body : Element → Option (Option β)) (root : Element) :
    Option (List β) :=
  (mapOpt body (iterElems tag root)).map catOptions

/-- `parse_lattes_xml` (`parse_lattes.py` lines 18–188): extract the
five categories from the document tree, then sort each list by its year
key, descending, with Python's stable `list.sort(key=..., reverse=True)`.
`none` models the run aborting on an uncaught `ValueError` from
`int()`. -/
def parse_lattes_xml (root : Element) : Option ParseData := do
  let arts ← collectRecords (toStr "ARTIGO-PUBLICADO") processArtigo root
  let confs ← collectRecords (toStr "TRABALHO-EM-EVENTOS") processTrabalho root
  let books ← collectRecords (toStr "LIVRO-PUBLICADO-OU-ORGANIZADO") processLivro root
  let chaps ← collectRecords (toStr "CAPITULO-DE-LIVRO-PUBLICADO") processCapitulo root
  let projs := (iterElems (toStr "PROJETO-DE-PESQUISA") root).map processProjeto
  some
    { articles := sortKeyDesc (fun a => a.year) arts
      conference_papers := sortKeyDesc (fun p => p.year) confs
      books := sortKeyDesc (fun b => b.year) books
      book_chapters := sortKeyDesc (fun c => c.year) chaps
      projects := sortKeyDesc (fun p => p.year_start) projs }

/-! ## `generate_lattes_pages.py`: fragment rendering -/

/-- The double-quote character. -/
def dquote : Char := Char.ofNat 34

/-- The apostrophe character. -/
def squote : Char := Char.ofNat 39

/-- `html.escape` on one character (`quote=True` default): `&`, `<`,
`>`, `"` and the apostrophe are replaced by entities. -/
def escapeChar (c : Char) : Str :=
  if c = '&' then toStr "&amp;"
  else if c = '<' then toStr "&lt;"
  else if c = '>' then toStr "&gt;"
  else if c = dquote then toStr "&quot;"
  else if c = squote then toStr "&#x27;"
  else [c]

/-- `html.escape(s)`.  The Python implementation performs the five
`str.replace` passes in sequence starting with `&`; since no
replacement text contains a character that a later pass rewrites, and
the `&` pass runs first, this equals the character-by-character map. -/
def escape (s : Str) : Str := s.flatMap escapeChar

/-- `", ".join(parts)`. -/
def joinSep (sep : Str) : List Str → Str
  | [] => []
  | [a] => a
  | a :: rest => a ++ sep ++ joinSep sep rest

/-- `format_authors` (`generate_lattes_pages.py` lines 36–56) with its
default `max_authors=10`.  The loop body appends the author name
unchanged in both of its branches, so `formatted` is just the first
`max_authors` names; names are joined with `", "` and `" et al."` is
appended when authors were dropped.  An empty list yields `""`. -/
def format_authors (authors : List Str) : Str :=
  let max_authors := 10
  let formatted := authors.take max_authors
  let result := joinSep (toStr ", ") formatted
  if authors.length > max_authors then result ++ toStr " et al." else result

/-- The publication dictionary consumed by `generate_publication_card`:
a JSON object whose keys may be absent (`none`), looked up with
`pub.get(key, default)`. -/
structure Pub where
  title : Option Str := none
  title_en : Option Str := none
  year : Option Str := none
  doi : Option Str := none
  authors : Option (List Str) := none
  journal : Option Str := none
  volume : Option Str := none
  pages : Option Str := none
  event : Option Str := none
  event_en : Option Str := none
  city : Option Str := none
  country : Option Str := none
  publisher : Option Str := none
  book_title : Option Str := none

/-- `s.strip('-')`: remove leading and trailing dashes. -/
def stripDashes (s : Str) : Str :=
  ((s.dropWhile (· = '-')).reverse.dropWhile (· = '-')).reverse

/-- Venue text for `pub_type == 'article'` (`generate_lattes_pages.py`
lines 68–76): escaped journal, then raw volume and raw stripped pages
when nonempty. -/
def articleVenue (pub : Pub) : Str :=
  let journal := escape (pub.journal.getD [])
  let volume := pub.volume.getD []
  let pages := stripDashes (pub.pages.getD [])
  journal ++ (if volume ≠ [] then toStr ", Vol. " ++ volume else [])
    ++ (if pages ≠ [] then toStr ", pp. " ++ pages else [])

/-- Venue text for `pub_type == 'conference'` (lines 77–85): escaped
event (falling back to the English event name), then raw city and raw
country (the latter only when nonempty and different from the city). -/
def conferenceVenue (pub : Pub) : Str :=
  let event := escape (pyOr (pub.event.getD []) (pub.event_en.getD []))
  let city := pub.city.getD []
  let country := pub.country.getD []
  event ++ (if city ≠ [] then toStr ", " ++ city else [])
    ++ (if country ≠ [] ∧ country ≠ city then toStr ", " ++ country else [])

/-- Venue text for `pub_type == 'book'` (lines 86–88). -/
def bookVenue (pub : Pub) : Str :=
  let publisher := escape (pub.publisher.getD [])
  if publisher ≠ [] then toStr "Publisher: " ++ publisher else []

/-- Venue text for `pub_type == 'chapter'` (lines 89–94). -/
def chapterVenue (pub : Pub) : Str :=
  let book_title := escape (pub.book_title.getD [])
  let publisher := escape (pub.publisher.getD [])
  toStr "In: " ++ book_title ++
    (if publisher ≠ [] then toStr " (" ++ publisher ++ toStr ")" else [])

/-- The venue dispatch on `pub_type` (lines 67–96; the final `else`
yields the empty venue). -/
def cardVenue (pub : Pub) (pub_type : Str) : Str :=
  if pub_type = toStr "article" then articleVenue pub
  else if pub_type = toStr "conference" then conferenceVenue pub
  else if pub_type = toStr "book" then bookVenue pub
  else if pub_type = toStr "chapter" then chapterVenue pub
  else []

/-- `s.startswith(p)`. -/
def strStartsWith (pre s : Str) : Bool := pre.isPrefixOf s

/-- The anchor markup built at `generate_lattes_pages.py` line 104:
`f'<a href="{doi_url}" target="_blank" rel="noopener" class="hover:text-blue-600">{title}</a>'`. -/
def linkMarkup (doi_url title : Str) : Str :=
  toStr "<a href=\"" ++ doi_url ++
    toStr "\" target=\"_blank\" rel=\"noopener\" class=\"hover:text-blue-600\">" ++
    title ++ toStr "</a>"

/-- The title markup of a publication card (`generate_lattes_pages.py`
lines 98–106): when the DOI string is nonempty, the title becomes a
link — to `https://doi.org/{doi}` when the DOI does not start with
`http`, and to the DOI text itself otherwise; with an empty DOI the
(already escaped) title is used as plain text. -/
def doiTitleHtml (doi title : Str) : Str :=
  if doi ≠ [] then
    let doi_url :=
      if ¬ strStartsWith (toStr "http") doi then toStr "https://doi.org/" ++ doi else doi
    linkMarkup doi_url title
  else title

/-- `generate_publication_card` (`generate_lattes_pages.py` lines
59–119): the full card fragment.  The interpolations are: escaped
title (falling back to the English title, whose `dict.get` default
`'Unknown Title'` applies only when the key is absent), the venue per
`cardVenue`, escaped formatted authors, and the raw year. -/
def generate_publication_card (pub : Pub) (pub_type color : Str) : Str :=
  let title := escape (pyOr (pub.title.getD [])
    (pub.title_en.getD (toStr "Unknown Title")))
  let authors := format_authors (pub.authors.getD [])
  let year := pub.year.getD []
  let doi := pub.doi.getD []
  let venue := cardVenue pub pub_type
  let title_html := doiTitleHtml doi title
  toStr "        <div class=\"publication-card bg-white p-5 rounded-xl border hover:shadow-md transition-shadow\">\n          <div class=\"flex items-start gap-4\">\n            <span class=\"year-badge bg-" ++
    color ++ toStr "-100 text-" ++ color ++
    toStr "-800 px-3 py-1 rounded-full text-sm font-semibold flex-shrink-0\">" ++
    year ++
    toStr "</span>\n            <div class=\"flex-1 min-w-0\">\n              <h3 class=\"font-semibold text-gray-900 mb-1\">\n                " ++
    title_html ++
    toStr "\n              </h3>\n              <p class=\"text-sm text-gray-600 mb-1\">" ++
    escape authors ++
    toStr "</p>\n              <p class=\"text-sm text-gray-500\">" ++
    venue ++
    toStr "</p>\n            </div>\n          </div>\n        </div>"

/-! ## `generate_lattes_pages.py`: project status classification -/

/-- `status_class` (`generate_lattes_pages.py` line 385). -/
def project_status_class (status : Str) : Str :=
  if status = toStr "EM_ANDAMENTO" then toStr "status-ongoing" else toStr "status-completed"

/-- `status_text` (line 386). -/
def project_status_text (status : Str) : Str :=
  if status = toStr "EM_ANDAMENTO" then toStr "Ongoing" else toStr "Completed"

/-- `border_color` (line 387). -/
def project_border_color (status : Str) : Str :=
  if status = toStr "EM_ANDAMENTO" then toStr "green" else toStr "indigo"

/-- `project_class` (line 388). -/
def project_css_class (status : Str) : Str :=
  if status = toStr "EM_ANDAMENTO" then toStr "ongoing" else toStr "completed"

/-- `ongoing = [p for p in projects if p.get('status') == 'EM_ANDAMENTO']`
(`generate_lattes_pages.py` line 601). -/
def ongoingProjects (projects : List Project) : List Project :=
  projects.filter (fun p => p.status == toStr "EM_ANDAMENTO")

/-- `completed = [p for p in projects if p.get('status') != 'EM_ANDAMENTO']`
(line 602). -/
def completedProjects (projects : List Project) : List Project :=
  projects.filter (fun p => !(p.status == toStr "EM_ANDAMENTO"))

/-! ## `generate_html.py`: number formatting -/

/-- The ASCII digit character for `d < 10`. -/
def digitChar (d : Nat) : Char := Char.ofNat (48 + d)

/-- Fueled big-endian decimal digits of a natural number (`str(num)`);
the fuel is always sufficient at `n + 1`. -/
def natDecimalAux : Nat → Nat → Str
  | 0, _ => []
  | fuel + 1, n =>
    if n < 10 then [digitChar n] else natDecimalAux fuel (n / 10) ++ [digitChar (n % 10)]

/-- `str(num)` for a non-negative integer: its decimal digit string. -/
def natDecimal (n : Nat) : Str := natDecimalAux (n + 1) n

/-- Insert a comma after every three characters of a reversed digit
string (the grouping pass of Python's `format(num, ',')`). -/
def group3Rev : Str → Str
  | a :: b :: c :: d :: rest => a :: b :: c :: ',' :: group3Rev (d :: rest)
  | s => s

/-- `format_number` (`generate_html.py` lines 43–45): `f"{num:,}"`,
i.e. the decimal digit string with a comma after every group of three
digits counted from the right, independent of locale. -/
def format_number (num : Nat) : Str :=
  (group3Rev (natDecimal num).reverse).reverse

/-! ## `generate_html.py`: the `re.sub` regular-expression engine

The patterns of `update_html` use literals, character classes (`\d`,
`\s`, `[\d,]`, `[^>]`, `[^<]`, and `.` under `re.DOTALL`), greedy `*`
and `+`, the lazy `.*?`, and (non-capturing or capturing) grouping,
which is concatenation here.  The engine below returns, at a given
position, the list of possible remainders after a match in the
backtracking engine's preference order (greedy `*` longest-first, lazy
`*?` shortest-first), so its head is the match `re` chooses. -/

inductive Regex where
  | eps
  | pred (p : Char → Bool)
  | cat (a b : Regex)
  | star (r : Regex)
  | lstar (r : Regex)

/-- Remainders after iterating a greedy star whose single step is
`me`, longest iteration count first; each iteration must consume at
least one character, so `fuel = s.length` suffices. -/
def starEndsG (me : Str → List Str) : Nat → Str → List Str
  | 0, s => [s]
  | fuel + 1, s =>
    ((me s).flatMap fun t => if t.length < s.length then starEndsG me fuel t else []) ++ [s]

/-- Remainders after iterating a lazy star, fewest iterations first. -/
def starEndsL (me : Str → List Str) : Nat → Str → List Str
  | 0, s => [s]
  | fuel + 1, s =>
    s :: ((me s).flatMap fun t => if t.length < s.length then starEndsL me fuel t else [])

/-- All remainders of `s` after a match of `r` at its start, in the
backtracking engine's preference order. -/
def matchEnds : Regex → Str → List Str
  | .eps, s => [s]
  | .pred _, [] => []
  | .pred p, c :: cs => if p c then [cs] else []
  | .cat a b, s => (matchEnds a s).flatMap (matchEnds b)
  | .star r, s => starEndsG (matchEnds r) s.length s
  | .lstar r, s => starEndsL (matchEnds r) s.length s
termination_by structural r => r

/-- The remainder after the match the backtracking engine chooses at
the start of `s`, when one exists. -/
def tryMatch (r : Regex) (s : Str) : Option Str := (matchEnds r s).head?

/-- Whether `r` matches anywhere in `s` (at any start position). -/
def hasMatch (r : Regex) : Str → Bool
  | [] => !(matchEnds r []).isEmpty
  | c :: cs => !(matchEnds r (c :: cs)).isEmpty || hasMatch r cs

/-- Fueled body of `re.sub`: scan left to right; at a position with no
match copy one character, otherwise emit `repl` applied to the matched
text and continue after it (after a zero-width match, additionally copy
one character — no pattern in this file matches the empty string). -/
def reSubAux (r : Regex) (repl : Str → Str) : Nat → Str → Str
  | 0, s => s
  | fuel + 1, s =>
    match tryMatch r s with
    | none =>
      match s with
      | [] => []
      | c :: cs => c :: reSubAux r repl fuel cs
    | some rest =>
      let m := s.take (s.length - rest.length)
      if m = [] then
        match s with
        | [] => repl []
        | c :: cs => repl [] ++ c :: reSubAux r repl fuel cs
      else repl m ++ reSubAux r repl fuel rest

/-- `re.sub(r, repl, s)` with a replacement that may depend on the
matched text (modelling backreferences): replace every non-overlapping
match, left to right.  `s.length + 1` units of fuel always suffice,
since every step either consumes a character of `s` or ends. -/
def reSub (r : Regex) (repl : Str → Str) (s : Str) : Str :=
  reSubAux r repl (s.length + 1) s

/-- A single literal character. -/
def rchar (c : Char) : Regex := .pred (· = c)

/-- A literal string. -/
def rlit (s : String) : Regex := s.data.foldr (fun c r => .cat (rchar c) r) .eps

/-- `\d` (ASCII; the inputs here are ASCII). -/
def rdigit : Regex := .pred Char.isDigit

/-- `[^c]`. -/
def rnotChar (c : Char) : Regex := .pred (· ≠ c)

/-- `.` under `re.DOTALL`. -/
def rdot : Regex := .pred (fun _ => true)

/-- `\s` (ASCII whitespace). -/
def rspace : Regex := .pred isSpaceChar

/-- `r+`. -/
def rplus (r : Regex) : Regex := .cat r (.star r)

/-- `r'id="citations-count"[^>]*data-value="\d+"[^>]*>\d[\d,]*'`
(`generate_html.py` line 106). -/
def citationsPattern : Regex :=
  .cat (rlit "id=\"citations-count\"") (.cat (.star (rnotChar '>'))
    (.cat (rlit "data-value=\"") (.cat (rplus rdigit) (.cat (rchar dquote)
      (.cat (.star (rnotChar '>')) (.cat (rchar '>')
        (.cat rdigit (.star (.pred (fun c => c.isDigit || c = ','))))))))))

/-- `r'id="h-index"[^>]*data-value="\d+"[^>]*>\d+'` (line 113). -/
def hIndexPattern : Regex :=
  .cat (rlit "id=\"h-index\"") (.cat (.star (rnotChar '>'))
    (.cat (rlit "data-value=\"") (.cat (rplus rdigit) (.cat (rchar dquote)
      (.cat (.star (rnotChar '>')) (.cat (rchar '>') (rplus rdigit)))))))

/-- `r'id="i10-index"[^>]*data-value="\d+"[^>]*>\d+'` (line 120). -/
def i10Pattern : Regex :=
  .cat (rlit "id=\"i10-index\"") (.cat (.star (rnotChar '>'))
    (.cat (rlit "data-value=\"") (.cat (rplus rdigit) (.cat (rchar dquote)
      (.cat (.star (rnotChar '>')) (.cat (rchar '>') (rplus rdigit)))))))

/-- `r'Last updated: [^<]+'` (line 129). -/
def lastUpdatedPattern : Regex :=
  .cat (rlit "Last updated: ") (rplus (rnotChar '<'))

/-- Capturing group 1 of the publications pattern:
`(<div id="publications-list"[^>]*>)` (line 141). -/
def pubsOpenGroup : Regex :=
  .cat (rlit "<div id=\"publications-list\"") (.cat (.star (rnotChar '>')) (rchar '>'))

/-- Capturing group 2 of the publications pattern:
`(</div>\s*\n\s*<!-- Publication Profiles -->)` (line 141). -/
def pubsCloseGroup : Regex :=
  .cat (rlit "</div>") (.cat (.star rspace) (.cat (rchar '\n')
    (.cat (.star rspace) (rlit "<!-- Publication Profiles -->"))))

/-- The whole publications-region pattern
`r'(<div id="publications-list"[^>]*>)\s*(?:.*?)(</div>\s*\n\s*<!-- Publication Profiles -->)'`
compiled with `re.DOTALL` (line 141). -/
def publicationsPattern : Regex :=
  .cat pubsOpenGroup (.cat (.star rspace) (.cat (.lstar rdot) pubsCloseGroup))

/-- The text captured by group 1, recovered from the matched text: the
open-group match at the start of the overall match. -/
def extractG1 (m : Str) : Str :=
  match tryMatch pubsOpenGroup m with
  | some rest => m.take (m.length - rest.length)
  | none => []

/-- The text captured by group 2, recovered from the matched text: the
close group ends the overall match, and the lazy `.*?` starts it as
early as possible, so it is the longest suffix of the matched text that
the close group matches completely. -/
def extractG2 : Str → Str
  | [] => []
  | c :: cs =>
    if (matchEnds pubsCloseGroup (c :: cs)).any List.isEmpty then c :: cs else extractG2 cs

/-- Replacement string for the citations anchor (`generate_html.py`
line 107): it interpolates the raw value into `data-value` and the
comma-formatted value into the visible text. -/
def citationsRepl (citations : Nat) (_m : Str) : Str :=
  toStr "id=\"citations-count\" class=\"metric-value\" data-value=\"" ++
    natDecimal citations ++ toStr "\">" ++ format_number citations

/-- Replacement string for the h-index anchor (line 114). -/
def hIndexRepl (h_index : Nat) (_m : Str) : Str :=
  toStr "id=\"h-index\" class=\"metric-value\" data-value=\"" ++
    natDecimal h_index ++ toStr "\">" ++ natDecimal h_index

/-- Replacement string for the i10-index anchor (line 121). -/
def i10Repl (i10_index : Nat) (_m : Str) : Str :=
  toStr "id=\"i10-index\" class=\"metric-value\" data-value=\"" ++
    natDecimal i10_index ++ toStr "\">" ++ natDecimal i10_index

/-- Replacement string for the last-updated marker (line 131). -/
def lastUpdatedRepl (formatted_date : Str) (_m : Str) : Str :=
  toStr "Last updated: " ++ formatted_date

/-- Replacement for the publications region (line 142),
`rf'\1\n{pubs_html}\n      \2'`. -/
def publicationsRepl (pubs_html : Str) (m : Str) : Str :=
  extractG1 m ++ '\n' :: pubs_html ++ toStr "\n      " ++ extractG2 m

/-- A publication entry of `scholar_metrics.json`, a JSON object with
possibly-absent keys read through `pub.get(key, default)`. -/
structure ScholarPub where
  title : Option Str := none
  authors : Option Str := none
  venue : Option Str := none
  year : Option Str := none
  citations : Option Nat := none
  url : Option Str := none

/-- `generate_publication_html` (`generate_html.py` lines 48–85). -/
def generate_publication_html (pub : ScholarPub) : Str :=
  let title := escape (pub.title.getD (toStr "Unknown Title"))
  let authors := escape (pub.authors.getD (toStr "Unknown Authors"))
  let venue := escape (pub.venue.getD (toStr "Unknown Venue"))
  let year := pub.year.getD []
  let citations := pub.citations.getD 0
  let url := pub.url.getD (toStr "#")
  let venue_text := if year ≠ [] then venue ++ toStr ", " ++ year else venue
  toStr "        <div class=\"publication-item p-6 bg-white rounded-xl shadow-sm border hover:shadow-md transition-shadow\">\n          <div class=\"flex items-start justify-between\">\n            <div class=\"flex-1\">\n              <h3 class=\"font-semibold text-gray-900 mb-2\">\n                <a href=\"" ++
    url ++
    toStr "\" target=\"_blank\" rel=\"noopener\" class=\"hover:text-blue-600 transition-colors\">\n                  " ++
    title ++
    toStr "\n                </a>\n              </h3>\n              <p class=\"text-sm text-gray-600 mb-1\">" ++
    authors ++
    toStr "</p>\n              <p class=\"text-sm text-gray-500\">" ++
    venue_text ++
    toStr "</p>\n            </div>\n            <div class=\"ml-4 text-right flex-shrink-0\">\n              <span class=\"inline-flex items-center px-3 py-1 rounded-full text-sm font-medium bg-blue-100 text-blue-800\">\n                " ++
    format_number citations ++
    toStr " citations\n              </span>\n            </div>\n          </div>\n        </div>"

/-- `update_html` (`generate_html.py` lines 88–145): apply the five
`re.sub` substitutions in order — citation count, h-index, i10-index,
last-updated marker (whose replacement date, produced in the source by
`datetime.fromisoformat(...).strftime('%B %Y')`, is taken here as the
argument `formatted_date`), and, when `top_publications` is nonempty,
the publications-list region. -/
def update_html (html_content : Str) (citations h_index i10_index : Nat)
    (formatted_date : Str) (top_publications : List ScholarPub) : Str :=
  let h1 := reSub citationsPattern (citationsRepl citations) html_content
  let h2 := reSub hIndexPattern (hIndexRepl h_index) h1
  let h3 := reSub i10Pattern (i10Repl i10_index) h2
  let h4 := reSub lastUpdatedPattern (lastUpdatedRepl formatted_date) h3
  if top_publications.isEmpty then h4
  else
    let pubs_html :=
      joinSep (toStr "\n        \n") (top_publications.map generate_publication_html)
    reSub publicationsPattern (publicationsRepl pubs_html) h4

/-! ## Substring search and claim-level predicates -/

/-- Whether `sub` occurs as a contiguous substring of `s`. -/
def strContains (s sub : Str) : Bool :=
  match s with
  | [] => sub.isEmpty
  | c :: rest => sub.isPrefixOf (c :: rest) || strContains rest sub

/-- Whether a year string is a nonempty all-digits numeral. -/
def isNumericYear (s : Str) : Bool := !s.isEmpty && s.all Char.isDigit

/-- The ordering invariant asserted by the specification for emitted
year lists: numeric years in non-increasing numeric order, and every
record with a missing or non-numeric year after all records with
numeric years (checked on adjacent pairs). -/
def claimYearOrder : List Str → Bool
  | [] => true
  | [_] => true
  | a :: b :: rest =>
    ((isNumericYear a && isNumericYear b && decide (digitsToNat b ≤ digitsToNat a)) ||
      (isNumericYear a && !isNumericYear b) ||
      (!isNumericYear a && !isNumericYear b)) && claimYearOrder (b :: rest)

/-! ## Concrete test documents -/

/-- An `AUTORES` element with a name and an authorship-order value. -/
def autorElem (name order : String) : Element :=
  .mk (toStr "AUTORES")
    [(toStr "NOME-COMPLETO-DO-AUTOR", toStr name), (toStr "ORDEM-DE-AUTORIA", toStr order)] []

/-- An `AUTORES` element with no authorship-order attribute. -/
def autorNoOrder (name : String) : Element :=
  .mk (toStr "AUTORES") [(toStr "NOME-COMPLETO-DO-AUTOR", toStr name)] []

/-- An article basic-data element with only a year. -/
def dadosArtigoY (year : String) : Element :=
  .mk (toStr "DADOS-BASICOS-DO-ARTIGO") [(toStr "ANO-DO-ARTIGO", toStr year)] []

/-- An article element with basic data carrying only a year. -/
def artigoY (year : String) : Element :=
  .mk (toStr "ARTIGO-PUBLICADO") [] [dadosArtigoY year]

/-- A document with two journal articles, years `2024` and `N/A` in
that order. -/
def c1doc : Element :=
  .mk (toStr "CURRICULO-VITAE") [] [artigoY "2024", artigoY "N/A"]

/-- The article record extracted from `artigoY "N/A"`. -/
def c1artNA : Article :=
  { title := [], title_en := [], year := toStr "N/A", doi := [], language := [],
    authors := [], journal := [], volume := [], issue := [], pages := [], issn := [] }

/-- The article record extracted from `artigoY "2024"`. -/
def c1art2024 : Article :=
  { title := [], title_en := [], year := toStr "2024", doi := [], language := [],
    authors := [], journal := [], volume := [], issue := [], pages := [], issn := [] }

/-- A document with one conference paper whose authorship elements
appear with order integers 2, 1, 3 for names B, A, C. -/
def c2doc : Element :=
  .mk (toStr "CURRICULO-VITAE") []
    [.mk (toStr "PRODUCAO-BIBLIOGRAFICA") []
      [.mk (toStr "TRABALHO-EM-EVENTOS") []
        [.mk (toStr "DADOS-BASICOS-DO-TRABALHO")
            [(toStr "TITULO-DO-TRABALHO", toStr "T"), (toStr "ANO-DO-TRABALHO", toStr "2020")] [],
         autorElem "B" "2", autorElem "A" "1", autorElem "C" "3"]]]

/-- A publication dictionary whose volume field contains markup. -/
def c3pub : Pub :=
  { title := some (toStr "T"), year := some (toStr "2024"), authors := some [toStr "A"],
    journal := some (toStr "J"), volume := some (toStr "<b>") }

/-- A research-project element carrying a description attribute, one
member and one funding agency. -/
def c4proj : Element :=
  .mk (toStr "PROJETO-DE-PESQUISA")
    [(toStr "NOME-DO-PROJETO", toStr "P"), (toStr "ANO-INICIO", toStr "2020"),
      (toStr "SITUACAO", toStr "EM_ANDAMENTO"),
      (toStr "DESCRICAO-DO-PROJETO", toStr "Texto da descricao")]
    [.mk (toStr "EQUIPE-DO-PROJETO") []
        [.mk (toStr "INTEGRANTES-DO-PROJETO")
            [(toStr "NOME-COMPLETO", toStr "M"), (toStr "FLAG-RESPONSAVEL", toStr "SIM")] []],
      .mk (toStr "FINANCIADOR-DO-PROJETO") [(toStr "NOME-INSTITUICAO", toStr "CNPq")] []]

/-- An article basic-data element with a title and a year. -/
def c6dadosArt : Element :=
  .mk (toStr "DADOS-BASICOS-DO-ARTIGO")
    [(toStr "TITULO-DO-ARTIGO", toStr "T"), (toStr "ANO-DO-ARTIGO", toStr "2020")] []

/-- An article element with no basic-data child. -/
def c6artNoDados : Element := .mk (toStr "ARTIGO-PUBLICADO") [] []

/-- An article element with basic data and an author but no details child. -/
def c6artNoDet : Element :=
  .mk (toStr "ARTIGO-PUBLICADO") [] [c6dadosArt, autorElem "A" "1"]

/-- A conference-paper element with no basic-data child. -/
def c6trabNoDados : Element := .mk (toStr "TRABALHO-EM-EVENTOS") [] []

/-- A conference-paper element with basic data but no details child. -/
def c6trabNoDet : Element :=
  .mk (toStr "TRABALHO-EM-EVENTOS") [] [.mk (toStr "DADOS-BASICOS-DO-TRABALHO") [] []]

/-- A book element with no basic-data child. -/
def c6livroNoDados : Element := .mk (toStr "LIVRO-PUBLICADO-OU-ORGANIZADO") [] []

/-- A book element with basic data but no details child. -/
def c6livroNoDet : Element :=
  .mk (toStr "LIVRO-PUBLICADO-OU-ORGANIZADO") [] [.mk (toStr "DADOS-BASICOS-DO-LIVRO") [] []]

/-- A chapter element with no basic-data child. -/
def c6capNoDados : Element := .mk (toStr "CAPITULO-DE-LIVRO-PUBLICADO") [] []

/-- A chapter element with basic data but no details child. -/
def c6capNoDet : Element :=
  .mk (toStr "CAPITULO-DE-LIVRO-PUBLICADO") [] [.mk (toStr "DADOS-BASICOS-DO-CAPITULO") [] []]

/-- An authorship element whose order value is not an integer numeral. -/
def c10badAutor : Element := autorElem "X" "abc"

/-- An article element with basic data whose author carries the
non-integer order value. -/
def c10failArt : Element :=
  .mk (toStr "ARTIGO-PUBLICADO") [] [c6dadosArt, c10badAutor]

/-- A document whose only article has basic data and a non-integer
authorship-order value. -/
def c10failDoc : Element := .mk (toStr "CURRICULO-VITAE") [] [c10failArt]

/-- An article element with no basic-data child but an authorship
element carrying a non-integer order value. -/
def c10artSemDados : Element := .mk (toStr "ARTIGO-PUBLICADO") [] [c10badAutor]

/-- A document whose only article lacks basic data yet contains an
authorship element with a non-integer order value. -/
def c10skipDoc : Element := .mk (toStr "CURRICULO-VITAE") [] [c10artSemDados]

/-! ## Lemmas about the lexicographic string order -/

theorem strLt_irrefl (s : Str) : strLt s s = false := by
  induction s with
  | nil => rfl
  | cons c cs ih => simp [strLt, ih]

theorem strLt_asymm : ∀ (a b : Str), strLt a b = true → strLt b a = false := by
  intro a
  induction a with
  | nil =>
    intro b h
    cases b with
    | nil => simp [strLt] at h
    | cons d ds => simp [strLt]
  | cons c cs ih =>
    intro b h
    cases b with
    | nil => simp [strLt] at h
    | cons d ds =>
      simp only [strLt] at h ⊢
      rcases Nat.lt_trichotomy c.toNat d.toNat with hlt | heq | hgt
      · rw [if_neg (by omega), if_pos hlt]
      · rw [if_neg (by omega), if_neg (by omega)]
        rw [if_neg (by omega), if_neg (by omega)] at h
        exact ih ds h
      · rw [if_neg (by omega), if_pos hgt] at h
        exact absurd h (by simp)

theorem strLt_neg_trans :
    ∀ (a b c : Str), strLt a b = false → strLt b c = false → strLt a c = false := by
  intro a
  induction a with
  | nil =>
    intro b c h1 h2
    cases b with
    | nil => exact h2
    | cons y ys => simp [strLt] at h1
  | cons x xs ih =>
    intro b c h1 h2
    cases b with
    | nil =>
      cases c with
      | nil => simp [strLt]
      | cons z zs => simp [strLt] at h2
    | cons y ys =>
      cases c with
      | nil => simp [strLt]
      | cons z zs =>
        simp only [strLt] at h1 h2 ⊢
        rcases Nat.lt_trichotomy x.toNat y.toNat with hxy | hxy | hxy
        · rw [if_pos hxy] at h1
          exact absurd h1 (by simp)
        · rw [if_neg (by omega), if_neg (by omega)] at h1
          rcases Nat.lt_trichotomy y.toNat z.toNat with hyz | hyz | hyz
          · rw [if_pos hyz] at h2
            exact absurd h2 (by simp)
          · rw [if_neg (by omega), if_neg (by omega)] at h2
            rw [if_neg (by omega), if_neg (by omega)]
            exact ih ys zs h1 h2
          · rw [if_neg (by omega), if_pos (by omega)]
        · rcases Nat.lt_trichotomy y.toNat z.toNat with hyz | hyz | hyz
          · rw [if_pos hyz] at h2
            exact absurd h2 (by simp)
          · rw [if_neg (by omega), if_pos (by omega)]
          · rw [if_neg (by omega), if_pos (by omega)]

theorem strLt_nil_eq_false {s : Str} (h : strLt [] s = false) : s = [] := by
  cases s with
  | nil => rfl
  | cons c cs => simp [strLt] at h

/-! ## Lemmas about the stable descending sort -/

theorem perm_insertKeyDesc (key : α → Str) (x : α) (l : List α) :
    List.Perm (insertKeyDesc key x l) (x :: l) := by
  induction l with
  | nil => exact List.Perm.refl _
  | cons y ys ih =>
    simp only [insertKeyDesc]
    split
    · exact (ih.cons y).trans (List.Perm.swap x y ys)
    · exact List.Perm.refl _

theorem perm_sortKeyDesc (key : α → Str) (l : List α) :
    List.Perm (sortKeyDesc key l) l := by
  induction l with
  | nil => exact List.Perm.refl _
  | cons x xs ih => exact (perm_insertKeyDesc key x (sortKeyDesc key xs)).trans (ih.cons x)

theorem pairwise_insertKeyDesc (key : α → Str) (x : α) (l : List α)
    (h : l.Pairwise (fun a b => strLt (key a) (key b) = false)) :
    (insertKeyDesc key x l).Pairwise (fun a b => strLt (key a) (key b) = false) := by
  induction l with
  | nil => simp [insertKeyDesc]
  | cons y ys ih =>
    rw [List.pairwise_cons] at h
    obtain ⟨hy, hys⟩ := h
    simp only [insertKeyDesc]
    by_cases hcond : strLt (key x) (key y) = true
    · rw [if_pos hcond, List.pairwise_cons]
      refine ⟨fun z hz => ?_, ih hys⟩
      rcases List.mem_cons.mp ((perm_insertKeyDesc key x ys).mem_iff.mp hz) with rfl | hzys
      · exact strLt_asymm _ _ hcond
      · exact hy z hzys
    · have hcond' : strLt (key x) (key y) = false := by
        simpa using hcond
      rw [if_neg hcond, List.pairwise_cons]
      refine ⟨fun z hz => ?_, List.pairwise_cons.mpr ⟨hy, hys⟩⟩
      rcases List.mem_cons.mp hz with rfl | hzys
      · exact hcond'
      · exact strLt_neg_trans _ _ _ hcond' (hy z hzys)

theorem pairwise_sortKeyDesc (key : α → Str) (l : List α) :
    (sortKeyDesc key l).Pairwise (fun a b => strLt (key a) (key b) = false) := by
  induction l with
  | nil => simp [sortKeyDesc]
  | cons x xs ih => exact pairwise_insertKeyDesc key x (sortKeyDesc key xs) ih

theorem filter_insertKeyDesc (key : α → Str) (y : Str) (x : α) (l : List α) :
    (insertKeyDesc key x l).filter (fun a => key a == y) =
      if key x == y then x :: l.filter (fun a => key a == y)
      else l.filter (fun a => key a == y) := by
  induction l with
  | nil =>
    by_cases hx : (key x == y) = true <;> simp [insertKeyDesc, List.filter, hx]
  | cons z zs ih =>
    simp only [insertKeyDesc]
    by_cases hcond : strLt (key x) (key z) = true
    · rw [if_pos hcond]
      by_cases hx : (key x == y) = true
      · have hz : (key z == y) = false := by
          rw [Bool.eq_false_iff]
          intro hzy
          rw [eq_of_beq hx, eq_of_beq hzy, strLt_irrefl] at hcond
          simp at hcond
        simp [List.filter_cons, hz, ih, hx]
      · simp [List.filter_cons, ih, hx]
    · rw [if_neg hcond]
      simp [List.filter_cons]

theorem filter_sortKeyDesc (key : α → Str) (y : Str) (l : List α) :
    (sortKeyDesc key l).filter (fun a => key a == y) = l.filter (fun a => key a == y) := by
  induction l with
  | nil => rfl
  | cons x xs ih =>
    show (insertKeyDesc key x (sortKeyDesc key xs)).filter _ = _
    rw [filter_insertKeyDesc, ih, List.filter_cons]

/-! ## Lemmas about the stable ascending author sort -/

theorem perm_insertAscFst (x : Int × Str) (l : List (Int × Str)) :
    List.Perm (insertAscFst x l) (x :: l) := by
  induction l with
  | nil => exact List.Perm.refl _
  | cons y ys ih =>
    simp only [insertAscFst]
    split
    · exact (ih.cons y).trans (List.Perm.swap x y ys)
    · exact List.Perm.refl _

theorem perm_sortAuthorPairs (l : List (Int × Str)) :
    List.Perm (sortAuthorPairs l) l := by
  induction l with
  | nil => exact List.Perm.refl _
  | cons x xs ih => exact (perm_insertAscFst x (sortAuthorPairs xs)).trans (ih.cons x)

theorem pairwise_insertAscFst (x : Int × Str) (l : List (Int × Str))
    (h : l.Pairwise (fun a b => a.1 ≤ b.1)) :
    (insertAscFst x l).Pairwise (fun a b => a.1 ≤ b.1) := by
  induction l with
  | nil => simp [insertAscFst]
  | cons y ys ih =>
    rw [List.pairwise_cons] at h
    obtain ⟨hy, hys⟩ := h
    simp only [insertAscFst]
    by_cases hcond : y.1 < x.1
    · rw [if_pos hcond, List.pairwise_cons]
      refine ⟨fun z hz => ?_, ih hys⟩
      rcases List.mem_cons.mp ((perm_insertAscFst x ys).mem_iff.mp hz) with rfl | hzys
      · omega
      · exact hy z hzys
    · rw [if_neg hcond, List.pairwise_cons]
      refine ⟨fun z hz => ?_, List.pairwise_cons.mpr ⟨hy, hys⟩⟩
      rcases List.mem_cons.mp hz with rfl | hzys
      · omega
      · have := hy z hzys
        omega

theorem pairwise_sortAuthorPairs (l : List (Int × Str)) :
    (sortAuthorPairs l).Pairwise (fun a b => a.1 ≤ b.1) := by
  induction l with
  | nil => simp [sortAuthorPairs]
  | cons x xs ih => exact pairwise_insertAscFst x (sortAuthorPairs xs) ih

/-! ## Lemmas about failure propagation -/

theorem mapOpt_eq_none (f : α → Option β) {l : List α} {a : α}
    (ha : a ∈ l) (hfa : f a = none) : mapOpt f l = none := by
  induction l with
  | nil => cases ha
  | cons x xs ih =>
    rcases List.mem_cons.mp ha with rfl | hmem
    · simp [mapOpt, hfa]
    · simp only [mapOpt]
      cases hfx : f x with
      | none => rfl
      | some b => simp [ih hmem]

theorem collectRecords_eq_none {tag : Str} {body : Element → Option (Option β)}
    {root e : Element} (he : e ∈ iterElems tag root) (hb : body e = none) :
    collectRecords tag body root = none := by
  simp [collectRecords, mapOpt_eq_none body he hb]

theorem authorEntry_eq_none {autor : Element} {s : Str}
    (hattr : getAttr? autor (toStr "ORDEM-DE-AUTORIA") = some s) (hs : pyInt s = none) :
    authorEntry autor = none := by
  simp [authorEntry, hattr, hs]

theorem extractAuthors_eq_none {e autor : Element} {s : Str}
    (hmem : autor ∈ iterElems (toStr "AUTORES") e)
    (hattr : getAttr? autor (toStr "ORDEM-DE-AUTORIA") = some s) (hs : pyInt s = none) :
    extractAuthors e = none := by
  simp [extractAuthors, collectAuthorPairs,
    mapOpt_eq_none authorEntry hmem (authorEntry_eq_none hattr hs)]

theorem parse_eq_none_of_collect {root : Element}
    (h : collectRecords (toStr "ARTIGO-PUBLICADO") processArtigo root = none ∨
      collectRecords (toStr "TRABALHO-EM-EVENTOS") processTrabalho root = none ∨
      collectRecords (toStr "LIVRO-PUBLICADO-OU-ORGANIZADO") processLivro root = none ∨
      collectRecords (toStr "CAPITULO-DE-LIVRO-PUBLICADO") processCapitulo root = none) :
    parse_lattes_xml root = none := by
  rcases h with h | h | h | h <;>
    cases h1 : collectRecords (toStr "ARTIGO-PUBLICADO") processArtigo root <;>
    cases h2 : collectRecords (toStr "TRABALHO-EM-EVENTOS") processTrabalho root <;>
    cases h3 : collectRecords (toStr "LIVRO-PUBLICADO-OU-ORGANIZADO") processLivro root <;>
    cases h4 : collectRecords (toStr "CAPITULO-DE-LIVRO-PUBLICADO") processCapitulo root <;>
    simp_all [parse_lattes_xml]

/-! ## Lemmas about `re.sub` when the pattern has no match -/

theorem hasMatch_false_head {r : Regex} {s : Str} (h : hasMatch r s = false) :
    matchEnds r s = [] := by
  cases s with
  | nil =>
    simp only [hasMatch] at h
    simpa using h
  | cons c cs =>
    simp only [hasMatch, Bool.or_eq_false_iff] at h
    simpa using h.1

theorem hasMatch_false_tail {r : Regex} {c : Char} {cs : Str}
    (h : hasMatch r (c :: cs) = false) : hasMatch r cs = false := by
  simp only [hasMatch, Bool.or_eq_false_iff] at h
  exact h.2

theorem reSubAux_no_match (r : Regex) (f : Str → Str) :
    ∀ (s : Str) (fuel : Nat), hasMatch r s = false → reSubAux r f fuel s = s := by
  intro s
  induction s with
  | nil =>
    intro fuel h
    cases fuel with
    | zero => rfl
    | succ fuel => simp [reSubAux, tryMatch, hasMatch_false_head h]
  | cons c cs ih =>
    intro fuel h
    cases fuel with
    | zero => rfl
    | succ fuel =>
      simp only [reSubAux, tryMatch, hasMatch_false_head h, List.head?]
      exact congrArg (c :: ·) (ih fuel (hasMatch_false_tail h))

theorem reSub_no_match {r : Regex} (f : Str → Str) {s : Str}
    (h : hasMatch r s = false) : reSub r f s = s :=
  reSubAux_no_match r f s (s.length + 1) h

/-! ## Lemmas about the thousands-separator formatting -/

theorem digitChar_isDigit {d : Nat} (hd : d < 10) : (digitChar d).isDigit = true := by
  interval_cases d <;> decide

theorem natDecimalAux_isDigit :
    ∀ (fuel n : Nat) (c : Char), c ∈ natDecimalAux fuel n → c.isDigit = true := by
  intro fuel
  induction fuel with
  | zero => intro n c h; simp [natDecimalAux] at h
  | succ fuel ih =>
    intro n c h
    simp only [natDecimalAux] at h
    by_cases hn : n < 10
    · rw [if_pos hn] at h
      simp only [List.mem_singleton] at h
      subst h
      exact digitChar_isDigit hn
    · rw [if_neg hn] at h
      rcases List.mem_append.mp h with h' | h'
      · exact ih (n / 10) c h'
      · simp only [List.mem_singleton] at h'
        subst h'
        exact digitChar_isDigit (Nat.mod_lt n (by omega))

theorem natDecimal_ne_comma {n : Nat} {c : Char} (h : c ∈ natDecimal n) : c ≠ ',' := by
  intro hc
  have := natDecimalAux_isDigit (n + 1) n c h
  rw [hc] at this
  simp at this

theorem group3Rev_filter :
    ∀ (s : Str), (∀ c ∈ s, c ≠ ',') → (group3Rev s).filter (fun c => !(c == ',')) = s
  | [], _ => rfl
  | [a], hs => by simp_all [group3Rev]
  | [a, b], hs => by simp_all [group3Rev]
  | [a, b, c], hs => by simp_all [group3Rev]
  | a :: b :: c :: d :: rest, hs => by
    have ih := group3Rev_filter (d :: rest) (fun x hx => hs x (by simp_all))
    have ha := hs a (by simp)
    have hb := hs b (by simp)
    have hc := hs c (by simp)
    simp only [group3Rev, List.filter_cons]
    simp [ha, hb, hc, ih]

theorem group3Rev_comma :
    ∀ (s : Str), (∀ c ∈ s, c ≠ ',') →
      ∀ i, i < (group3Rev s).length → ((group3Rev s).getD i '0' = ',' ↔ i % 4 = 3)
  | [], _, i, hi => by simp [group3Rev] at hi
  | [a], hs, i, hi => by
    simp only [group3Rev, List.length_singleton] at hi
    have hi0 : i = 0 := by omega
    subst hi0
    simpa [group3Rev] using hs a (by simp)
  | [a, b], hs, i, hi => by
    have hi' : i < 2 := hi
    have ha := hs a (by simp)
    have hb := hs b (by simp)
    have : i = 0 ∨ i = 1 := by omega
    rcases this with rfl | rfl <;> simp_all [group3Rev]
  | [a, b, c], hs, i, hi => by
    have hi' : i < 3 := hi
    have ha := hs a (by simp)
    have hb := hs b (by simp)
    have hc := hs c (by simp)
    have : i = 0 ∨ i = 1 ∨ i = 2 := by omega
    rcases this with rfl | rfl | rfl <;> simp_all [group3Rev]
  | a :: b :: c :: d :: rest, hs, i, hi => by
    have ha := hs a (by simp)
    have hb := hs b (by simp)
    have hc := hs c (by simp)
    have hlen : (group3Rev (a :: b :: c :: d :: rest)).length
        = (group3Rev (d :: rest)).length + 4 := by
      simp [group3Rev]
    match i, hi with
    | 0, _ => simp [group3Rev, ha]
    | 1, _ => simp [group3Rev, hb]
    | 2, _ => simp [group3Rev, hc]
    | 3, _ => simp [group3Rev]
    | (j + 4), hj =>
      have hj' : j < (group3Rev (d :: rest)).length := by
        rw [hlen] at hj
        omega
      have ih := group3Rev_comma (d :: rest)
        (fun x hx => hs x (List.mem_cons_of_mem a
          (List.mem_cons_of_mem b (List.mem_cons_of_mem c hx)))) j hj'
      have heq : (group3Rev (a :: b :: c :: d :: rest)).getD (j + 4) '0'
          = (group3Rev (d :: rest)).getD j '0' := by
        simp [group3Rev, List.getD_cons_succ]
      rw [heq, show (j + 4) % 4 = j % 4 from by omega]
      exact ih

/-! ## Lemmas about HTML escaping -/

theorem escape_no_markup (s : Str) (c : Char) (hc : c ∈ escape s) :
    c ≠ '<' ∧ c ≠ '>' ∧ c ≠ dquote ∧ c ≠ squote := by
  simp only [escape, List.mem_flatMap] at hc
  obtain ⟨a, _, hca⟩ := hc
  unfold escapeChar at hca
  split_ifs at hca with h1 h2 h3 h4 h5
  · have hca' : c ∈ ['&', 'a', 'm', 'p', ';'] := hca
    fin_cases hca' <;> decide
  · have hca' : c ∈ ['&', 'l', 't', ';'] := hca
    fin_cases hca' <;> decide
  · have hca' : c ∈ ['&', 'g', 't', ';'] := hca
    fin_cases hca' <;> decide
  · have hca' : c ∈ ['&', 'q', 'u', 'o', 't', ';'] := hca
    fin_cases hca' <;> decide
  · have hca' : c ∈ ['&', '#', 'x', '2', '7', ';'] := hca
    fin_cases hca' <;> decide
  · have hca' : c = a := List.mem_singleton.mp hca
    subst hca'
    exact ⟨h2, h3, h4, h5⟩

/-! ## Claim theorems -/

/-- C2: for every emitted publication record the author list is sorted
ascending by the `ORDEM-DE-AUTORIA` integer regardless of document
order: the sorting pass is order-sorted and a permutation of the
collected pairs, every record's author list is the name projection of
that sorted pair list, and the 2,1,3 / B,A,C scenario parses to
[A, B, C]. -/
theorem c2_authors_sorted_by_order :
    (∀ (l : List (Int × Str)), (sortAuthorPairs l).Pairwise (fun a b => a.1 ≤ b.1)) ∧
    (∀ (l : List (Int × Str)), List.Perm (sortAuthorPairs l) l) ∧
    (∀ (e : Element), extractAuthors e =
      (collectAuthorPairs e).map (fun l => (sortAuthorPairs l).map Prod.snd)) ∧
    (parse_lattes_xml c2doc).map (fun d => d.conference_papers.map (fun p => p.authors)) =
      some [[toStr "A", toStr "B", toStr "C"]] :=
  ⟨pairwise_sortAuthorPairs, perm_sortAuthorPairs, fun _ => rfl, rfl⟩

/-- C4: the extractor never takes the free-text project description
from the source document — the emitted `description` and
`description_en` fields are the empty string for every project element,
even when the source element carries a description attribute; the other
project fields (name, years, status, funding, members) are carried. -/
theorem c4_description_empty :
    (∀ (e : Element),
      (processProjeto e).description = [] ∧ (processProjeto e).description_en = []) ∧
    getAttr? c4proj (toStr "DESCRICAO-DO-PROJETO") = some (toStr "Texto da descricao") ∧
    processProjeto c4proj =
      { name := toStr "P", year_start := toStr "2020", year_end := [],
        status := toStr "EM_ANDAMENTO", nature := [], description := [],
        description_en := [],
        funding := [{ agency := toStr "CNPq", nature := [] }],
        members := [{ name := toStr "M", role := toStr "SIM" }] } :=
  ⟨fun _ => ⟨rfl, rfl⟩, rfl, rfl⟩

/-- C7: project classification is by exact match of the status string
against `EM_ANDAMENTO`: the card badge text and class are `Ongoing` /
`status-ongoing` exactly for that status and `Completed` /
`status-completed` for every other value (including the empty string),
and the page partition puts a project in the ongoing list exactly when
its status equals `EM_ANDAMENTO` and in the completed list otherwise,
the two counts summing to the total. -/
theorem c7_status_exact_match :
    (∀ (status : Str),
      project_status_text status = toStr "Ongoing" ↔ status = toStr "EM_ANDAMENTO") ∧
    (∀ (status : Str),
      project_status_text status = toStr "Completed" ↔ status ≠ toStr "EM_ANDAMENTO") ∧
    (∀ (status : Str),
      project_status_class status = toStr "status-ongoing" ↔ status = toStr "EM_ANDAMENTO") ∧
    (∀ (projects : List Project) (p : Project),
      (p ∈ ongoingProjects projects ↔ p ∈ projects ∧ p.status = toStr "EM_ANDAMENTO") ∧
      (p ∈ completedProjects projects ↔ p ∈ projects ∧ p.status ≠ toStr "EM_ANDAMENTO")) ∧
    (∀ (projects : List Project),
      (ongoingProjects projects).length + (completedProjects projects).length
        = projects.length) := by
  refine ⟨fun status => ?_, fun status => ?_, fun status => ?_,
    fun projects p => ⟨?_, ?_⟩, fun projects => ?_⟩
  · by_cases h : status = toStr "EM_ANDAMENTO" <;> simp [project_status_text, h] <;> decide
  · by_cases h : status = toStr "EM_ANDAMENTO" <;> simp [project_status_text, h] <;> decide
  · by_cases h : status = toStr "EM_ANDAMENTO" <;> simp [project_status_class, h] <;> decide
  · simp [ongoingProjects, List.mem_filter]
  · simp [completedProjects, List.mem_filter]
  · exact (List.length_eq_length_filter_add
      (fun q : Project => q.status == toStr "EM_ANDAMENTO")).symm

/-- C1 (amended): each emitted category list is stably sorted in
descending *lexicographic code-point order of the year string* (the
key is `year`, `year_start` for projects): the sort never places a
lexicographically smaller year string before a larger one, is a
permutation of the collected records, keeps records with equal year
strings in their original relative order, and places records with an
empty (missing) year after all others; non-numeric years are ordered by
the string comparison, not necessarily after numeric years. -/
theorem c1_year_sort_lex_desc :
    (∀ (α : Type) (key : α → Str) (l : List α),
      (sortKeyDesc key l).Pairwise (fun a b => strLt (key a) (key b) = false)) ∧
    (∀ (α : Type) (key : α → Str) (l : List α), List.Perm (sortKeyDesc key l) l) ∧
    (∀ (α : Type) (key : α → Str) (l : List α) (y : Str),
      (sortKeyDesc key l).filter (fun a => key a == y) = l.filter (fun a => key a == y)) ∧
    (∀ (α : Type) (key : α → Str) (l : List α),
      (sortKeyDesc key l).Pairwise (fun a b => key a = [] → key b = [])) ∧
    (∀ (root : Element) (d : ParseData), parse_lattes_xml root = some d →
      d.articles.Pairwise (fun a b => strLt a.year b.year = false) ∧
      d.conference_papers.Pairwise (fun a b => strLt a.year b.year = false) ∧
      d.books.Pairwise (fun a b => strLt a.year b.year = false) ∧
      d.book_chapters.Pairwise (fun a b => strLt a.year b.year = false) ∧
      d.projects.Pairwise (fun a b => strLt a.year_start b.year_start = false)) := by
  refine ⟨fun α key l => pairwise_sortKeyDesc key l,
    fun α key l => perm_sortKeyDesc key l,
    fun α key l y => filter_sortKeyDesc key y l,
    fun α key l => (pairwise_sortKeyDesc key l).imp
      (fun h ha => strLt_nil_eq_false (ha ▸ h)),
    fun root d h => ?_⟩
  unfold parse_lattes_xml at h
  cases h1 : collectRecords (toStr "ARTIGO-PUBLICADO") processArtigo root with
  | none => rw [h1] at h; simp at h
  | some arts =>
  rw [h1] at h
  cases h2 : collectRecords (toStr "TRABALHO-EM-EVENTOS") processTrabalho root with
  | none => rw [h2] at h; simp at h
  | some confs =>
  rw [h2] at h
  cases h3 : collectRecords (toStr "LIVRO-PUBLICADO-OU-ORGANIZADO") processLivro root with
  | none => rw [h3] at h; simp at h
  | some bks =>
  rw [h3] at h
  cases h4 : collectRecords (toStr "CAPITULO-DE-LIVRO-PUBLICADO") processCapitulo root with
  | none => rw [h4] at h; simp at h
  | some chaps =>
  rw [h4] at h
  simp only [Bind.bind, Option.bind, Option.some.injEq] at h
  subst h
  exact ⟨pairwise_sortKeyDesc _ _, pairwise_sortKeyDesc _ _, pairwise_sortKeyDesc _ _,
    pairwise_sortKeyDesc _ _, pairwise_sortKeyDesc _ _⟩

/-- C1 counterexample: on a document whose articles carry years `2024`
and `N/A`, the emitted article list is `N/A` first — the string sort
places the non-numeric year *before* the numeric one, so the claimed
ordering invariant (numeric descending, non-numeric after all numeric)
is violated. -/
theorem c1_counterexample :
    (parse_lattes_xml c1doc).map (fun d => d.articles.map (fun a => a.year)) =
      some [toStr "N/A", toStr "2024"] ∧
    claimYearOrder [toStr "N/A", toStr "2024"] = false :=
  ⟨rfl, rfl⟩

/-- C1 witness: the amended sortedness facts applied to the concrete
two-article document. -/
theorem c1_witness :
    parse_lattes_xml c1doc = some ⟨[c1artNA, c1art2024], [], [], [], []⟩ ∧
    List.Pairwise (fun (a b : Article) => strLt a.year b.year = false)
      [c1artNA, c1art2024] :=
  ⟨rfl, (c1_year_sort_lex_desc.2.2.2.2 c1doc ⟨[c1artNA, c1art2024], [], [], [], []⟩ rfl).1⟩

/-- C8 (amended): with a nonempty DOI not starting with `http` the card
title links to `https://doi.org/{doi}`; with a nonempty DOI that does
start with `http` the title still links, to the DOI text itself (the
claim said it would fall back to plain text); only with an empty DOI is
the title rendered as plain text. -/
theorem c8_doi_link_amended :
    (∀ (doi title : Str), doi ≠ [] → strStartsWith (toStr "http") doi = false →
      doiTitleHtml doi title = linkMarkup (toStr "https://doi.org/" ++ doi) title) ∧
    (∀ (doi title : Str), doi ≠ [] → strStartsWith (toStr "http") doi = true →
      doiTitleHtml doi title = linkMarkup doi title) ∧
    (∀ (title : Str), doiTitleHtml [] title = title) := by
  refine ⟨fun doi title h1 h2 => ?_, fun doi title h1 h2 => ?_, fun title => rfl⟩
  · simp [doiTitleHtml, h1, h2]
  · simp [doiTitleHtml, h1, h2]

/-- C8 counterexample: a DOI field holding a full URL (starting with
`http`) still renders the title as a link to that URL; the claim's
"otherwise ... the title is rendered as plain text" fails here. -/
theorem c8_counterexample :
    doiTitleHtml (toStr "http://example.com/x") (toStr "T") =
      linkMarkup (toStr "http://example.com/x") (toStr "T") ∧
    doiTitleHtml (toStr "http://example.com/x") (toStr "T") ≠ toStr "T" :=
  ⟨rfl, by decide⟩

/-- C8 witness: the three amended branches at concrete DOIs. -/
theorem c8_witness :
    doiTitleHtml (toStr "10.1/x") (toStr "T") =
      linkMarkup (toStr "https://doi.org/10.1/x") (toStr "T") ∧
    doiTitleHtml (toStr "https://doi.org/10.1/x") (toStr "T") =
      linkMarkup (toStr "https://doi.org/10.1/x") (toStr "T") ∧
    doiTitleHtml [] (toStr "T") = toStr "T" :=
  ⟨c8_doi_link_amended.1 (toStr "10.1/x") (toStr "T") (by decide) rfl,
    c8_doi_link_amended.2.1 (toStr "https://doi.org/10.1/x") (toStr "T") (by decide) rfl,
    c8_doi_link_amended.2.2 (toStr "T")⟩

/-- C3 (amended): in a publication card the title, formatted authors,
journal, event, book title, and publisher are interpolated through
`html.escape` — whose output never contains a raw `<`, `>`, double
quote, or apostrophe — while volume, stripped pages, city, country, and
the year are interpolated verbatim, unescaped (shown here by the venue
equations, in which the volume and city fields appear untouched). -/
theorem c3_escaping_amended :
    (∀ (s : Str) (c : Char), c ∈ escape s →
      c ≠ '<' ∧ c ≠ '>' ∧ c ≠ dquote ∧ c ≠ squote) ∧
    (∀ (pub : Pub) (v : Str), pub.volume = some v → v ≠ [] →
      articleVenue pub = escape (pub.journal.getD []) ++ (toStr ", Vol. " ++ v) ++
        (if stripDashes (pub.pages.getD []) ≠ [] then
          toStr ", pp. " ++ stripDashes (pub.pages.getD []) else [])) ∧
    (∀ (pub : Pub) (city : Str), pub.city = some city → city ≠ [] →
      conferenceVenue pub =
        escape (pyOr (pub.event.getD []) (pub.event_en.getD [])) ++ (toStr ", " ++ city) ++
        (if pub.country.getD [] ≠ [] ∧ pub.country.getD [] ≠ city then
          toStr ", " ++ pub.country.getD [] else [])) := by
  refine ⟨escape_no_markup, fun pub v hv hne => ?_, fun pub city hc hne => ?_⟩
  · simp [articleVenue, hv, hne]
  · simp [conferenceVenue, hc, hne]

set_option maxRecDepth 40000 in
/-- C3 counterexample: an article record whose volume field is `<b>`
yields a card in which `Vol. <b>` appears verbatim and the escaped form
`Vol. &lt;b&gt;` does not appear — the volume field is not
HTML-escaped in the output. -/
theorem c3_counterexample :
    strContains (generate_publication_card c3pub (toStr "article") (toStr "blue"))
      (toStr "Vol. <b>") = true ∧
    strContains (generate_publication_card c3pub (toStr "article") (toStr "blue"))
      (toStr "Vol. &lt;b&gt;") = false :=
  ⟨rfl, rfl⟩

/-- C3 witness: the amended venue equations at concrete records. -/
theorem c3_witness :
    articleVenue c3pub = escape (toStr "J") ++ (toStr ", Vol. " ++ toStr "<b>") ++
      (if stripDashes [] ≠ [] then toStr ", pp. " ++ stripDashes [] else []) ∧
    conferenceVenue { city := some (toStr "Rio"), event := some (toStr "E") } =
      escape (pyOr (toStr "E") []) ++ (toStr ", " ++ toStr "Rio") ++
        (if ([] : Str) ≠ [] ∧ ([] : Str) ≠ toStr "Rio" then toStr ", " ++ [] else []) :=
  ⟨c3_escaping_amended.2.1 c3pub (toStr "<b>") rfl (by decide),
    c3_escaping_amended.2.2 { city := some (toStr "Rio"), event := some (toStr "E") }
      (toStr "Rio") rfl (by decide)⟩

/-- C6: for each of the four publication categories, an element with no
basic-data child is skipped (no record emitted), while an element with
basic data but no details child still yields a record whose
details-derived fields are all the empty string. -/
theorem c6_missing_subelements :
    (∀ (e : Element), findChild e (toStr "DADOS-BASICOS-DO-ARTIGO") = none →
      processArtigo e = some none) ∧
    (∀ (e dados : Element) (prs : List (Int × Str)),
      findChild e (toStr "DADOS-BASICOS-DO-ARTIGO") = some dados →
      findChild e (toStr "DETALHAMENTO-DO-ARTIGO") = none →
      collectAuthorPairs e = some prs →
      (processArtigo e).map (Option.map (fun r =>
        [r.journal, r.volume, r.issue, r.pages, r.issn])) =
        some (some [[], [], [], [], []])) ∧
    (∀ (e : Element), findChild e (toStr "DADOS-BASICOS-DO-TRABALHO") = none →
      processTrabalho e = some none) ∧
    (∀ (e dados : Element) (prs : List (Int × Str)),
      findChild e (toStr "DADOS-BASICOS-DO-TRABALHO") = some dados →
      findChild e (toStr "DETALHAMENTO-DO-TRABALHO") = none →
      collectAuthorPairs e = some prs →
      (processTrabalho e).map (Option.map (fun r =>
        [r.event, r.event_en, r.proceedings, r.pages, r.city, r.country])) =
        some (some [[], [], [], [], [], []])) ∧
    (∀ (e : Element), findChild e (toStr "DADOS-BASICOS-DO-LIVRO") = none →
      processLivro e = some none) ∧
    (∀ (e dados : Element) (prs : List (Int × Str)),
      findChild e (toStr "DADOS-BASICOS-DO-LIVRO") = some dados →
      findChild e (toStr "DETALHAMENTO-DO-LIVRO") = none →
      collectAuthorPairs e = some prs →
      (processLivro e).map (Option.map (fun r => [r.publisher, r.isbn, r.pages])) =
        some (some [[], [], []])) ∧
    (∀ (e : Element), findChild e (toStr "DADOS-BASICOS-DO-CAPITULO") = none →
      processCapitulo e = some none) ∧
    (∀ (e dados : Element) (prs : List (Int × Str)),
      findChild e (toStr "DADOS-BASICOS-DO-CAPITULO") = some dados →
      findChild e (toStr "DETALHAMENTO-DO-CAPITULO") = none →
      collectAuthorPairs e = some prs →
      (processCapitulo e).map (Option.map (fun r =>
        [r.book_title, r.publisher, r.isbn, r.pages])) = some (some [[], [], [], []])) := by
  refine ⟨fun e h => ?_, fun e dados prs h1 h2 h3 => ?_,
    fun e h => ?_, fun e dados prs h1 h2 h3 => ?_,
    fun e h => ?_, fun e dados prs h1 h2 h3 => ?_,
    fun e h => ?_, fun e dados prs h1 h2 h3 => ?_⟩
  · simp [processArtigo, h]
  · simp [processArtigo, h1, h2, extractAuthors, h3, detGet, detPages]
  · simp [processTrabalho, h]
  · simp [processTrabalho, h1, h2, extractAuthors, h3, detGet, detPages]
  · simp [processLivro, h]
  · simp [processLivro, h1, h2, extractAuthors, h3, detGet]
  · simp [processCapitulo, h]
  · simp [processCapitulo, h1, h2, extractAuthors, h3, detGet, detPages]

/-- C6 witness: both behaviours at concrete elements of each
category. -/
theorem c6_witness :
    processArtigo c6artNoDados = some none ∧
    (processArtigo c6artNoDet).map (Option.map (fun r =>
      [r.journal, r.volume, r.issue, r.pages, r.issn])) = some (some [[], [], [], [], []]) ∧
    processTrabalho c6trabNoDados = some none ∧
    (processTrabalho c6trabNoDet).map (Option.map (fun r =>
      [r.event, r.event_en, r.proceedings, r.pages, r.city, r.country])) =
      some (some [[], [], [], [], [], []]) ∧
    processLivro c6livroNoDados = some none ∧
    (processLivro c6livroNoDet).map (Option.map (fun r =>
      [r.publisher, r.isbn, r.pages])) = some (some [[], [], []]) ∧
    processCapitulo c6capNoDados = some none ∧
    (processCapitulo c6capNoDet).map (Option.map (fun r =>
      [r.book_title, r.publisher, r.isbn, r.pages])) = some (some [[], [], [], []]) :=
  ⟨c6_missing_subelements.1 c6artNoDados rfl,
    c6_missing_subelements.2.1 c6artNoDet c6dadosArt [(1, toStr "A")] rfl rfl rfl,
    c6_missing_subelements.2.2.1 c6trabNoDados rfl,
    c6_missing_subelements.2.2.2.1 c6trabNoDet (.mk (toStr "DADOS-BASICOS-DO-TRABALHO") [] [])
      [] rfl rfl rfl,
    c6_missing_subelements.2.2.2.2.1 c6livroNoDados rfl,
    c6_missing_subelements.2.2.2.2.2.1 c6livroNoDet
      (.mk (toStr "DADOS-BASICOS-DO-LIVRO") [] []) [] rfl rfl rfl,
    c6_missing_subelements.2.2.2.2.2.2.1 c6capNoDados rfl,
    c6_missing_subelements.2.2.2.2.2.2.2 c6capNoDet
      (.mk (toStr "DADOS-BASICOS-DO-CAPITULO") [] []) [] rfl rfl rfl⟩

/-- C10 (amended): extraction aborts with no output whenever an
authorship element *inside a publication element that has its
basic-data child* carries an order value `int()` cannot parse; an
absent order attribute instead defaults to the integer 0 and does not
fail.  (Authorship elements inside publication elements *without* basic
data are never visited, so they cannot abort the run — see the
counterexample.) -/
theorem c10_int_order_totality :
    (∀ (root e dados autor : Element) (s : Str),
      e ∈ iterElems (toStr "ARTIGO-PUBLICADO") root →
      findChild e (toStr "DADOS-BASICOS-DO-ARTIGO") = some dados →
      autor ∈ iterElems (toStr "AUTORES") e →
      getAttr? autor (toStr "ORDEM-DE-AUTORIA") = some s →
      pyInt s = none →
      parse_lattes_xml root = none) ∧
    (∀ (root e dados autor : Element) (s : Str),
      e ∈ iterElems (toStr "TRABALHO-EM-EVENTOS") root →
      findChild e (toStr "DADOS-BASICOS-DO-TRABALHO") = some dados →
      autor ∈ iterElems (toStr "AUTORES") e →
      getAttr? autor (toStr "ORDEM-DE-AUTORIA") = some s →
      pyInt s = none →
      parse_lattes_xml root = none) ∧
    (∀ (root e dados autor : Element) (s : Str),
      e ∈ iterElems (toStr "LIVRO-PUBLICADO-OU-ORGANIZADO") root →
      findChild e (toStr "DADOS-BASICOS-DO-LIVRO") = some dados →
      autor ∈ iterElems (toStr "AUTORES") e →
      getAttr? autor (toStr "ORDEM-DE-AUTORIA") = some s →
      pyInt s = none →
      parse_lattes_xml root = none) ∧
    (∀ (root e dados autor : Element) (s : Str),
      e ∈ iterElems (toStr "CAPITULO-DE-LIVRO-PUBLICADO") root →
      findChild e (toStr "DADOS-BASICOS-DO-CAPITULO") = some dados →
      autor ∈ iterElems (toStr "AUTORES") e →
      getAttr? autor (toStr "ORDEM-DE-AUTORIA") = some s →
      pyInt s = none →
      parse_lattes_xml root = none) ∧
    (∀ (autor : Element), getAttr? autor (toStr "ORDEM-DE-AUTORIA") = none →
      authorEntry autor = some (0, getAttrD autor (toStr "NOME-COMPLETO-DO-AUTOR") [])) := by
  refine ⟨fun root e dados autor s he hd ha hattr hpy => ?_,
    fun root e dados autor s he hd ha hattr hpy => ?_,
    fun root e dados autor s he hd ha hattr hpy => ?_,
    fun root e dados autor s he hd ha hattr hpy => ?_,
    fun autor h => by simp [authorEntry, h]⟩
  · exact parse_eq_none_of_collect (Or.inl (collectRecords_eq_none he
      (by simp [processArtigo, hd, extractAuthors_eq_none ha hattr hpy])))
  · exact parse_eq_none_of_collect (Or.inr (Or.inl (collectRecords_eq_none he
      (by simp [processTrabalho, hd, extractAuthors_eq_none ha hattr hpy]))))
  · exact parse_eq_none_of_collect (Or.inr (Or.inr (Or.inl (collectRecords_eq_none he
      (by simp [processLivro, hd, extractAuthors_eq_none ha hattr hpy])))))
  · exact parse_eq_none_of_collect (Or.inr (Or.inr (Or.inr (collectRecords_eq_none he
      (by simp [processCapitulo, hd, extractAuthors_eq_none ha hattr hpy])))))

/-- C10 counterexample: a document whose only article element *lacks*
its basic-data child but contains an authorship element with the
non-integer order value `abc` parses successfully (to the empty data
set) — the claim that *any* authorship element with a non-integer
order aborts the whole run is false, because authors of skipped
elements are never visited. -/
theorem c10_counterexample :
    parse_lattes_xml c10skipDoc = some ⟨[], [], [], [], []⟩ ∧
    c10badAutor ∈ iterElems (toStr "AUTORES") c10artSemDados ∧
    getAttr? c10badAutor (toStr "ORDEM-DE-AUTORIA") = some (toStr "abc") ∧
    pyInt (toStr "abc") = none :=
  ⟨rfl, List.mem_singleton_self _, rfl, rfl⟩

/-- C10 witness: the abort and the default-0 behaviours at concrete
inputs. -/
theorem c10_witness :
    parse_lattes_xml c10failDoc = none ∧
    authorEntry (autorNoOrder "A") = some (0, toStr "A") :=
  ⟨c10_int_order_totality.1 c10failDoc c10failArt c6dadosArt c10badAutor (toStr "abc")
      (List.mem_singleton_self _) rfl (List.mem_singleton_self _) rfl rfl,
    c10_int_order_totality.2.2.2.2 (autorNoOrder "A") rfl⟩

/-- C5: when an anchor pattern has no match in the target text, the
corresponding `re.sub` returns the text unchanged — for each of the
five patterns of `update_html` individually, and for the whole
`update_html` pass when none of the anchors matches. -/
theorem c5_anchor_not_found_identity :
    (∀ (text : Str) (f : Str → Str), hasMatch citationsPattern text = false →
      reSub citationsPattern f text = text) ∧
    (∀ (text : Str) (f : Str → Str), hasMatch hIndexPattern text = false →
      reSub hIndexPattern f text = text) ∧
    (∀ (text : Str) (f : Str → Str), hasMatch i10Pattern text = false →
      reSub i10Pattern f text = text) ∧
    (∀ (text : Str) (f : Str → Str), hasMatch lastUpdatedPattern text = false →
      reSub lastUpdatedPattern f text = text) ∧
    (∀ (text : Str) (f : Str → Str), hasMatch publicationsPattern text = false →
      reSub publicationsPattern f text = text) ∧
    (∀ (text : Str) (c h i : Nat) (date : Str) (pubs : List ScholarPub),
      hasMatch citationsPattern text = false →
      hasMatch hIndexPattern text = false →
      hasMatch i10Pattern text = false →
      hasMatch lastUpdatedPattern text = false →
      hasMatch publicationsPattern text = false →
      update_html text c h i date pubs = text) := by
  refine ⟨fun text f h => reSub_no_match f h, fun text f h => reSub_no_match f h,
    fun text f h => reSub_no_match f h, fun text f h => reSub_no_match f h,
    fun text f h => reSub_no_match f h,
    fun text c h i date pubs h1 h2 h3 h4 h5 => ?_⟩
  simp only [update_html, reSub_no_match _ h1, reSub_no_match _ h2, reSub_no_match _ h3,
    reSub_no_match _ h4, reSub_no_match _ h5]
  cases hp : pubs.isEmpty <;> simp [hp]

/-- C5 witness: a text containing none of the anchors is returned
untouched, both by the citations substitution and by the whole
`update_html` pass. -/
theorem c5_witness :
    reSub citationsPattern (citationsRepl 1234) (toStr "hello") = toStr "hello" ∧
    update_html (toStr "hello") 7 8 9 (toStr "June 2025") [] = toStr "hello" :=
  ⟨c5_anchor_not_found_identity.1 (toStr "hello") (citationsRepl 1234) rfl,
    c5_anchor_not_found_identity.2.2.2.2.2 (toStr "hello") 7 8 9 (toStr "June 2025") []
      rfl rfl rfl rfl rfl⟩

set_option maxRecDepth 80000 in
/-- C9: `format_number` renders a non-negative integer as its decimal
digit string with a comma inserted every three digits from the right
(independent of any locale state): deleting the commas recovers the
decimal representation, a character counted from the right is a comma
exactly at positions 3, 7, 11, …, the value 1234 renders as `1,234`,
and a citations anchor whose current value is 999 is rewritten by the
citations substitution to the formatted 1,234. -/
theorem c9_thousands_separator :
    (∀ (n : Nat), (format_number n).filter (fun c => !(c == ',')) = natDecimal n) ∧
    (∀ (n i : Nat), i < (format_number n).length →
      (((format_number n).reverse.getD i '0' = ',') ↔ i % 4 = 3)) ∧
    format_number 1234 = toStr "1,234" ∧
    reSub citationsPattern (citationsRepl 1234)
      (toStr "<span id=\"citations-count\" class=\"metric-value\" data-value=\"999\">999</span>") =
    toStr "<span id=\"citations-count\" class=\"metric-value\" data-value=\"1234\">1,234</span>" := by
  refine ⟨fun n => ?_, fun n i hi => ?_, rfl, rfl⟩
  · have hs : ∀ c ∈ (natDecimal n).reverse, c ≠ ',' :=
      fun c hc => natDecimal_ne_comma (List.mem_reverse.mp hc)
    show ((group3Rev (natDecimal n).reverse).reverse).filter _ = _
    rw [List.filter_reverse, group3Rev_filter _ hs, List.reverse_reverse]
  · have hs : ∀ c ∈ (natDecimal n).reverse, c ≠ ',' :=
      fun c hc => natDecimal_ne_comma (List.mem_reverse.mp hc)
    have hrev : (format_number n).reverse = group3Rev ((natDecimal n).reverse) := by
      show ((group3Rev (natDecimal n).reverse).reverse).reverse = _
      rw [List.reverse_reverse]
    have hlen : i < (group3Rev ((natDecimal n).reverse)).length := by
      rw [← hrev, List.length_reverse]
      exact hi
    rw [hrev]
    exact group3Rev_comma _ hs i hlen

/-- C9 witness: the comma-position characterisation applied at the
formatted value 1,234, position 3 from the right. -/
theorem c9_witness :
    ((format_number 1234).reverse.getD 3 '0' = ',') ↔ 3 % 4 = 3 :=
  c9_thousands_separator.2.1 1234 3 (by decide)

end LcadSite

